import Mathlib

/-!
Shallow embedding of the User CRUD service of this repository
(src/app/main.py) together with its configuration module (src/config.py).

Storage is a single relational table with `id` as primary key.  It is
embedded as the list of rows in insertion order together with the primary
key generator of the storage engine.  Each FastAPI endpoint handler is
embedded as a pure function on this state; raising `HTTPException` is
embedded as returning `Except.error`, which aborts the handler before any
write is committed.
-/

namespace PortfolioApi

/-- Row of the user table / response schema (class `User` in
src/app/main.py).  `id` is assigned by storage at creation;
`created_at` defaults to the creation time.  Timestamps are modelled as
natural numbers. -/
structure User where
  id : Nat
  name : String
  email : String
  age : Int
  created_at : Nat
deriving Repr, DecidableEq

/-- Request body of POST /users/ and PUT /users/:user_id.  The endpoints
declare the body as a full `User` payload, so `id` and `created_at`
(alias `createdAt`) may be present in the body; the handlers read only
`name`, `email` and `age` from it. -/
structure UserIn where
  id : Option Nat := none
  name : String
  email : String
  age : Int
  created_at : Option Nat := none
deriving Repr, DecidableEq

/-- `fastapi.HTTPException` as raised by the handlers. -/
structure HTTPException where
  status_code : Nat
  detail : String
deriving Repr, DecidableEq

/-- The storage state.  `rows` is the table content in insertion order.
Modelled from the spec: the primary key generator lives in the storage
collaborator (SQLite behind `create_engine`, not part of src/); the spec
states that ids are generated by storage and never reused, so the
generator is embedded as a monotone counter `nextId`, starting at 1 as
SQLite does. -/
structure DB where
  rows : List User
  nextId : Nat
deriving Repr, DecidableEq

/-- The freshly created database (`SQLModel.metadata.create_all`): an
empty table. -/
def emptyDB : DB := ⟨[], 1⟩

/-- `db.exec(select(User).where(User.id == user_id)).first()`. -/
def findUser (db : DB) (user_id : Nat) : Option User :=
  db.rows.find? (fun u => u.id == user_id)

/-- POST /users/ (`create_user`): builds
`User(name=user.name, email=user.email, age=user.age)` — any `id` or
`created_at` supplied in the body is not passed on — inserts it, and
returns the stored record after `db.refresh`.  `now` is the wall-clock
time of the request (`datetime.now`), the storage engine assigns
`nextId` as the primary key. -/
def create_user (user : UserIn) (now : Nat) (db : DB) : User × DB :=
  let new_user : User :=
    { id := db.nextId, name := user.name, email := user.email,
      age := user.age, created_at := now }
  (new_user, { rows := db.rows ++ [new_user], nextId := db.nextId + 1 })

/-- Status code of the POST /users/ route decorator. -/
def create_user_status : Nat := 201

/-- GET /users (`root`): `db.exec(select(User)).all()` — every row, in the
table's natural (insertion) order. -/
def root (db : DB) : List User := db.rows

/-- GET /users/:user_id (`read_user`). -/
def read_user (user_id : Nat) (db : DB) : Except HTTPException User :=
  match findUser db user_id with
  | none => .error ⟨404, "User not found in the database"⟩
  | some user => .ok user

/-- The three field assignments `db_user.name = user.name;
db_user.email = user.email; db_user.age = user.age` of `update_user`. -/
def applyInput (db_user : User) (user : UserIn) : User :=
  { db_user with name := user.name, email := user.email, age := user.age }

/-- PUT /users/:user_id (`update_user`): the committed UPDATE rewrites
the row whose primary key is `user_id` in place and the handler returns
the refreshed record. -/
def update_user (user_id : Nat) (user : UserIn) (db : DB) :
    Except HTTPException (User × DB) :=
  match findUser db user_id with
  | none => .error ⟨404, "User not found in the database"⟩
  | some db_user =>
      let updated := applyInput db_user user
      .ok (updated,
        { db with
          rows := db.rows.map (fun u => if u.id == user_id then updated else u) })

/-- DELETE /users/:user_id (`delete_user`): the committed DELETE removes
the row whose primary key is `user_id`; the handler returns `None`
(no payload), embedded as the `Option User` value `none`. -/
def delete_user (user_id : Nat) (db : DB) :
    Except HTTPException (Option User × DB) :=
  match findUser db user_id with
  | none => .error ⟨404, "User not found"⟩
  | some _ =>
      .ok (none, { db with rows := db.rows.filter (fun u => u.id != user_id) })

/-- Status code of the DELETE /users/:user_id route decorator. -/
def delete_user_status : Nat := 204

/-- Storage state after a PUT /users/:user_id request: the
`HTTPException` is raised before any field assignment or commit, so on
error the storage is unchanged. -/
def update_user_db (user_id : Nat) (user : UserIn) (db : DB) : DB :=
  match update_user user_id user db with
  | .ok p => p.snd
  | .error _ => db

/-- Storage state after a DELETE /users/:user_id request: the
`HTTPException` is raised before `db.delete`, so on error the storage is
unchanged. -/
def delete_user_db (user_id : Nat) (db : DB) : DB :=
  match delete_user user_id db with
  | .ok p => p.snd
  | .error _ => db

/-- GET /users/:user_id issues only a SELECT: storage is unchanged. -/
def read_user_db (user_id : Nat) (db : DB) : DB := db

/-- A request that can change storage. -/
inductive Op where
  | create : UserIn → Nat → Op
  | update : Nat → UserIn → Op
  | delete : Nat → Op
deriving Repr, DecidableEq

/-- Storage state transition of one request. -/
def applyOp (op : Op) (db : DB) : DB :=
  match op with
  | .create user now => (create_user user now db).snd
  | .update user_id user => update_user_db user_id user db
  | .delete user_id => delete_user_db user_id db

/-- Storage state after serving a sequence of requests on a fresh
database. -/
def run (ops : List Op) : DB :=
  ops.foldl (fun db op => applyOp op db) emptyDB

/-- Serve a sequence of POST /users/ requests (body and request time
each), collecting the returned records in order. -/
def createAll (reqs : List (UserIn × Nat)) (db : DB) : List User × DB :=
  match reqs with
  | [] => ([], db)
  | (user, now) :: rest =>
      let res := create_user user now db
      let rest_res := createAll rest res.snd
      (res.fst :: rest_res.fst, rest_res.snd)

/-- Storage invariant: every assigned primary key is below the
generator's next value. -/
def WF (db : DB) : Prop := ∀ u ∈ db.rows, u.id < db.nextId

/-- Python's whitespace predicate for `str.strip()` / `str.isspace()`:
the ASCII whitespace and separator controls together with the Unicode
space characters. -/
def pyIsSpace (c : Char) : Bool :=
  (0x09 ≤ c.toNat && c.toNat ≤ 0x0d) || c.toNat = 0x20 ||
  (0x1c ≤ c.toNat && c.toNat ≤ 0x1f) || c.toNat = 0x85 || c.toNat = 0xa0 ||
  c.toNat = 0x1680 || (0x2000 ≤ c.toNat && c.toNat ≤ 0x200a) ||
  c.toNat = 0x2028 || c.toNat = 0x2029 || c.toNat = 0x202f ||
  c.toNat = 0x205f || c.toNat = 0x3000

/-- Python's `str.strip()`: remove leading and trailing whitespace. -/
def strip (v : String) : String :=
  String.mk (((v.toList.dropWhile pyIsSpace).reverse.dropWhile
    pyIsSpace).reverse)

/-- src/config.py, `Settings.validate_database_url`: rejects an empty or
whitespace-only DATABASE_URL with a `ValueError`
(`if not v or v.strip() == ""`). -/
def validate_database_url (v : String) : Except String String :=
  if v == "" || strip v == "" then
    .error "DATABASE_URL cannot be empty in .env file"
  else
    .ok v

/-- src/config.py: the `Settings` fields relevant here. -/
structure Settings where
  DATABASE_URL : String
  ALLOWED_ORIGINS : String := ""
  DEBUG : Bool := false
deriving Repr, DecidableEq

/-- Constructing `Settings` (done once at import time by
`settings = Settings()`), with `env_database_url` the DATABASE_URL value
found in the environment / .env file, if any.  Under pydantic v2 a field
validator runs only on explicitly supplied values: when the variable is
absent the plain default `""` is used as is (the field is not declared
with `validate_default`), so construction succeeds with an empty
connection string and no `ValueError` is raised. -/
def Settings.construct (env_database_url : Option String) :
    Except String Settings :=
  match env_database_url with
  | none => .ok { DATABASE_URL := "" }
  | some v =>
      match validate_database_url v with
      | .error e => .error e
      | .ok v' => .ok { DATABASE_URL := v' }

/-- src/app/main.py, module level: the connection string is a hardcoded
literal, not read from `Settings`. -/
def DATABASE_URL : String := "sqlite:///./users.db"

/-- src/app/main.py: the string handed to `create_engine`, i.e. the
connection string the service actually uses. -/
def engine_connection_string : String := DATABASE_URL

/-! ## Supporting lemmas -/

/-- A successful primary key lookup returns a row with that key. -/
lemma findUser_some_id {db : DB} {user_id : Nat} {u : User}
    (h : findUser db user_id = some u) : u.id = user_id := by
  have h' : db.rows.find? (fun v => v.id == user_id) = some u := h
  simpa using List.find?_some h'

/-- A successful primary key lookup returns a stored row. -/
lemma findUser_some_mem {db : DB} {user_id : Nat} {u : User}
    (h : findUser db user_id = some u) : u ∈ db.rows := by
  have h' : db.rows.find? (fun v => v.id == user_id) = some u := h
  exact List.mem_of_find?_eq_some h'

lemma find?_append_right {α : Type} {p : α → Bool} {l1 l2 : List α}
    (h : ∀ a ∈ l1, p a = false) : (l1 ++ l2).find? p = l2.find? p := by
  induction l1 with
  | nil => simp
  | cons a t ih =>
      rw [List.cons_append, List.find?_cons_of_neg _ (by simp [h a (by simp)])]
      exact ih fun a ha => h a (by simp [ha])

/-- Rewriting the row with primary key `user_id` commutes with looking
that key up: afterwards the lookup returns the rewritten row exactly
when it previously returned anything. -/
lemma find?_replace {rows : List User} {user_id : Nat} {u' : User}
    (hid : u'.id = user_id) :
    (rows.map (fun u => if u.id == user_id then u' else u)).find?
        (fun u => u.id == user_id)
      = (rows.find? (fun u => u.id == user_id)).map (fun _ => u') := by
  induction rows with
  | nil => simp
  | cons v t ih =>
      by_cases hv : v.id = user_id
      · simp [List.find?_cons_of_pos, hv, hid]
      · rw [List.map_cons, if_neg (by simpa using hv),
          List.find?_cons_of_neg _ (by simpa using hv),
          List.find?_cons_of_neg _ (by simpa using hv), ih]

/-- Rewriting the row with primary key `user_id` twice by the same row is
the same as rewriting it once. -/
lemma replace_idem {rows : List User} {user_id : Nat} {u' : User}
    (hid : u'.id = user_id) :
    ((rows.map (fun u => if u.id == user_id then u' else u)).map
        (fun u => if u.id == user_id then u' else u))
      = rows.map (fun u => if u.id == user_id then u' else u) := by
  induction rows with
  | nil => simp
  | cons v t ih =>
      simp only [List.map_cons]
      rw [ih]
      congr 1
      by_cases hv : v.id = user_id
      · simp [hv, hid]
      · simp [hv]

lemma WF_emptyDB : WF emptyDB := by
  intro u hu
  simp [emptyDB] at hu

lemma WF_create_user {db : DB} (h : WF db) (user : UserIn) (now : Nat) :
    WF (create_user user now db).snd := by
  intro u hu
  simp [create_user] at hu ⊢
  rcases hu with hu | hu
  · exact Nat.lt_succ_of_lt (h u hu)
  · simp [hu]

lemma WF_update_user_db {db : DB} (h : WF db) (user_id : Nat) (user : UserIn) :
    WF (update_user_db user_id user db) := by
  unfold update_user_db update_user
  cases hf : findUser db user_id with
  | none => simpa using h
  | some db_user =>
      intro u hu
      simp at hu ⊢
      obtain ⟨v, hv, hvu⟩ := hu
      by_cases hvid : v.id = user_id
      · rw [if_pos (by simpa using hvid)] at hvu
        have : u.id = db_user.id := by rw [← hvu]; rfl
        rw [this]
        exact h db_user (findUser_some_mem hf)
      · rw [if_neg (by simpa using hvid)] at hvu
        rw [← hvu]
        exact h v hv

lemma WF_delete_user_db {db : DB} (h : WF db) (user_id : Nat) :
    WF (delete_user_db user_id db) := by
  unfold delete_user_db delete_user
  cases hf : findUser db user_id with
  | none => simpa using h
  | some db_user =>
      intro u hu
      simp [List.mem_filter] at hu ⊢
      exact h u hu.1

lemma WF_applyOp {db : DB} (h : WF db) (op : Op) : WF (applyOp op db) := by
  cases op with
  | create user now => exact WF_create_user h user now
  | update user_id user => exact WF_update_user_db h user_id user
  | delete user_id => exact WF_delete_user_db h user_id

/-- Every reachable storage state satisfies the invariant. -/
lemma WF_run (ops : List Op) : WF (run ops) := by
  unfold run
  have main : ∀ (l : List Op) (db : DB), WF db →
      WF (l.foldl (fun db op => applyOp op db) db) := by
    intro l
    induction l with
    | nil => intro db hdb; simpa using hdb
    | cons op t ih =>
        intro db hdb
        exact ih (applyOp op db) (WF_applyOp hdb op)
  exact main ops emptyDB WF_emptyDB

/-- No request ever decreases the primary key generator. -/
lemma applyOp_nextId_le (op : Op) (db : DB) :
    db.nextId ≤ (applyOp op db).nextId := by
  cases op with
  | create user now => simp [applyOp, create_user]
  | update user_id user =>
      unfold applyOp update_user_db update_user
      cases hf : findUser db user_id <;> simp [hf]
  | delete user_id =>
      unfold applyOp delete_user_db delete_user
      cases hf : findUser db user_id <;> simp [hf]

lemma foldl_nextId_le (ops : List Op) :
    ∀ db : DB, db.nextId ≤ (ops.foldl (fun db op => applyOp op db) db).nextId := by
  induction ops with
  | nil => intro db; simp
  | cons op t ih =>
      intro db
      exact le_trans (applyOp_nextId_le op db) (ih (applyOp op db))

/-- The rows produced by a sequence of creates are appended in order. -/
lemma createAll_rows (reqs : List (UserIn × Nat)) :
    ∀ db : DB, (createAll reqs db).snd.rows = db.rows ++ (createAll reqs db).fst := by
  induction reqs with
  | nil => intro db; simp [createAll]
  | cons r t ih =>
      intro db
      obtain ⟨user, now⟩ := r
      simp [createAll, ih, create_user]

lemma createAll_length (reqs : List (UserIn × Nat)) :
    ∀ db : DB, (createAll reqs db).fst.length = reqs.length := by
  induction reqs with
  | nil => intro db; simp [createAll]
  | cons r t ih =>
      intro db
      obtain ⟨user, now⟩ := r
      simp [createAll, ih]

lemma create_user_fst (user : UserIn) (now : Nat) (db : DB) :
    (create_user user now db).fst
      = { id := db.nextId, name := user.name, email := user.email,
          age := user.age, created_at := now } := rfl

lemma create_user_snd_rows (user : UserIn) (now : Nat) (db : DB) :
    (create_user user now db).snd.rows
      = db.rows ++ [(create_user user now db).fst] := rfl

lemma create_user_snd_nextId (user : UserIn) (now : Nat) (db : DB) :
    (create_user user now db).snd.nextId = db.nextId + 1 := rfl

lemma applyInput_id (db_user : User) (user : UserIn) :
    (applyInput db_user user).id = db_user.id := rfl

/-- Appending a row whose primary key is fresh makes the lookup of that
key return exactly the appended row. -/
lemma find?_key_append {rows : List User} {u' : User}
    (hfresh : ∀ u ∈ rows, u.id ≠ u'.id) :
    (rows ++ [u']).find? (fun u => u.id == u'.id) = some u' := by
  rw [find?_append_right (fun u hu => by simpa using hfresh u hu)]
  simp [List.find?_cons_of_pos]

/-! ## The claims -/

/-- C1: for every id not present in storage, GetById (`read_user`),
Update (`update_user`) and Delete (`delete_user`) fail with the 404
`HTTPException` the handler raises — no record is returned — and the
storage state is unchanged. -/
theorem notFound_on_absent_id (user_id : Nat) (user : UserIn) (db : DB)
    (h : findUser db user_id = none) :
    read_user user_id db = .error ⟨404, "User not found in the database"⟩ ∧
    update_user user_id user db = .error ⟨404, "User not found in the database"⟩ ∧
    delete_user user_id db = .error ⟨404, "User not found"⟩ ∧
    update_user_db user_id user db = db ∧
    delete_user_db user_id db = db := by
  refine ⟨?_, ?_, ?_, ?_, ?_⟩ <;>
    simp [read_user, update_user, delete_user, update_user_db, delete_user_db, h]

/-- Witness for C1 at the concrete id 7 on the empty database. -/
theorem notFound_on_absent_id_witness :
    read_user 7 emptyDB = .error ⟨404, "User not found in the database"⟩ ∧
    update_user 7 ⟨none, "Ann", "a@x.com", 30, none⟩ emptyDB
      = .error ⟨404, "User not found in the database"⟩ ∧
    delete_user 7 emptyDB = .error ⟨404, "User not found"⟩ ∧
    update_user_db 7 ⟨none, "Ann", "a@x.com", 30, none⟩ emptyDB = emptyDB ∧
    delete_user_db 7 emptyDB = emptyDB :=
  notFound_on_absent_id 7 ⟨none, "Ann", "a@x.com", 30, none⟩ emptyDB rfl

/-- C2: on any storage state satisfying the invariant, Create followed by
GetById with the id of the returned record succeeds and returns a record
equal (in every field) to the record Create returned. -/
theorem create_getById_roundtrip (user : UserIn) (now : Nat) (db : DB)
    (h : WF db) :
    read_user (create_user user now db).fst.id (create_user user now db).snd
      = .ok (create_user user now db).fst := by
  unfold read_user findUser
  rw [create_user_snd_rows]
  rw [find?_key_append (fun u hu => by
    rw [create_user_fst]
    exact Nat.ne_of_lt (h u hu))]

/-- Witness for C2: a concrete create on the empty database. -/
theorem create_getById_roundtrip_witness :
    read_user
        (create_user ⟨none, "Ann", "a@x.com", 30, none⟩ 5 emptyDB).fst.id
        (create_user ⟨none, "Ann", "a@x.com", 30, none⟩ 5 emptyDB).snd
      = .ok (create_user ⟨none, "Ann", "a@x.com", 30, none⟩ 5 emptyDB).fst :=
  create_getById_roundtrip ⟨none, "Ann", "a@x.com", 30, none⟩ 5 emptyDB
    (by intro u hu; simp [emptyDB] at hu)

/-- C3: for an id that exists in storage, Update overwrites exactly
`name`, `email` and `age` of the stored record, leaves its `id` and
`created_at` unchanged, stores it back under the same id without adding
or removing rows, and returns the updated record. -/
theorem update_overwrites_only_mutable (user_id : Nat) (user : UserIn)
    (db : DB) (db_user : User) (h : findUser db user_id = some db_user) :
    ∃ db' : DB,
      update_user user_id user db = .ok (applyInput db_user user, db') ∧
      (applyInput db_user user).name = user.name ∧
      (applyInput db_user user).email = user.email ∧
      (applyInput db_user user).age = user.age ∧
      (applyInput db_user user).id = db_user.id ∧
      (applyInput db_user user).created_at = db_user.created_at ∧
      findUser db' user_id = some (applyInput db_user user) ∧
      db'.rows.length = db.rows.length ∧
      db'.nextId = db.nextId := by
  have h' : db.rows.find? (fun v => v.id == user_id) = some db_user := h
  have hid : (applyInput db_user user).id = user_id :=
    (applyInput_id db_user user).trans (findUser_some_id h)
  refine ⟨⟨db.rows.map
      (fun u => if u.id == user_id then applyInput db_user user else u),
      db.nextId⟩,
    ?_, rfl, rfl, rfl, rfl, rfl, ?_, by simp, rfl⟩
  · unfold update_user
    rw [h]
  · unfold findUser
    rw [find?_replace hid, h']
    rfl

/-- Witness for C3: a concrete update of the single stored user. -/
theorem update_overwrites_only_mutable_witness :
    ∃ db' : DB,
      update_user 1 ⟨none, "Bob", "b@x.com", 31, none⟩
          ⟨[⟨1, "Ann", "a@x.com", 30, 0⟩], 2⟩
        = .ok (applyInput ⟨1, "Ann", "a@x.com", 30, 0⟩
            ⟨none, "Bob", "b@x.com", 31, none⟩, db') ∧
      (applyInput ⟨1, "Ann", "a@x.com", 30, 0⟩
        ⟨none, "Bob", "b@x.com", 31, none⟩).name = "Bob" ∧
      (applyInput ⟨1, "Ann", "a@x.com", 30, 0⟩
        ⟨none, "Bob", "b@x.com", 31, none⟩).email = "b@x.com" ∧
      (applyInput ⟨1, "Ann", "a@x.com", 30, 0⟩
        ⟨none, "Bob", "b@x.com", 31, none⟩).age = 31 ∧
      (applyInput ⟨1, "Ann", "a@x.com", 30, 0⟩
        ⟨none, "Bob", "b@x.com", 31, none⟩).id
        = (⟨1, "Ann", "a@x.com", 30, 0⟩ : User).id ∧
      (applyInput ⟨1, "Ann", "a@x.com", 30, 0⟩
        ⟨none, "Bob", "b@x.com", 31, none⟩).created_at
        = (⟨1, "Ann", "a@x.com", 30, 0⟩ : User).created_at ∧
      findUser db' 1 = some (applyInput ⟨1, "Ann", "a@x.com", 30, 0⟩
        ⟨none, "Bob", "b@x.com", 31, none⟩) ∧
      db'.rows.length = (⟨[⟨1, "Ann", "a@x.com", 30, 0⟩], 2⟩ : DB).rows.length ∧
      db'.nextId = (⟨[⟨1, "Ann", "a@x.com", 30, 0⟩], 2⟩ : DB).nextId :=
  update_overwrites_only_mutable 1 ⟨none, "Bob", "b@x.com", 31, none⟩
    ⟨[⟨1, "Ann", "a@x.com", 30, 0⟩], 2⟩ ⟨1, "Ann", "a@x.com", 30, 0⟩ rfl

/-- C4: Update is idempotent — a second Update with the identical input
on the state produced by the first succeeds, returns the same record,
and reproduces the identical storage state. -/
theorem update_idempotent (user_id : Nat) (user : UserIn) (db : DB)
    (u1 : User) (db1 : DB)
    (h : update_user user_id user db = .ok (u1, db1)) :
    update_user user_id user db1 = .ok (u1, db1) := by
  cases hf : findUser db user_id with
  | none =>
      unfold update_user at h
      rw [hf] at h
      cases h
  | some db_user =>
      unfold update_user at h
      rw [hf] at h
      simp only [Except.ok.injEq, Prod.mk.injEq] at h
      obtain ⟨hu, hdb⟩ := h
      subst hu
      subst hdb
      have hid : (applyInput db_user user).id = user_id :=
        (applyInput_id db_user user).trans (findUser_some_id hf)
      have h' : db.rows.find? (fun v => v.id == user_id) = some db_user := hf
      have hfind : findUser
          ⟨db.rows.map
            (fun u => if u.id == user_id then applyInput db_user user else u),
            db.nextId⟩
          user_id = some (applyInput db_user user) := by
        unfold findUser
        rw [find?_replace hid, h']
        rfl
      unfold update_user
      rw [hfind]
      have happ : applyInput (applyInput db_user user) user
          = applyInput db_user user := rfl
      simp only [happ, Except.ok.injEq, Prod.mk.injEq, DB.mk.injEq]
      exact ⟨trivial, replace_idem hid, trivial⟩

/-- Witness for C4: the second identical update of the single stored
user reproduces the state after the first. -/
theorem update_idempotent_witness :
    update_user 1 ⟨none, "Bob", "b@x.com", 31, none⟩
        ⟨[⟨1, "Bob", "b@x.com", 31, 0⟩], 2⟩
      = .ok (⟨1, "Bob", "b@x.com", 31, 0⟩, ⟨[⟨1, "Bob", "b@x.com", 31, 0⟩], 2⟩) :=
  update_idempotent 1 ⟨none, "Bob", "b@x.com", 31, none⟩
    ⟨[⟨1, "Ann", "a@x.com", 30, 0⟩], 2⟩ ⟨1, "Bob", "b@x.com", 31, 0⟩
    ⟨[⟨1, "Bob", "b@x.com", 31, 0⟩], 2⟩ rfl

/-- C5: Delete on an existing id succeeds with no returned payload (the
route's status code is 204); afterwards GetById on that id fails with the
404 `HTTPException`, the record no longer appears in ListAll (`root`),
and no row is added. -/
theorem delete_removes_record (user_id : Nat) (db : DB) (db_user : User)
    (h : findUser db user_id = some db_user) :
    ∃ db' : DB,
      delete_user user_id db = .ok (none, db') ∧
      read_user user_id db' = .error ⟨404, "User not found in the database"⟩ ∧
      (∀ u ∈ root db', u.id ≠ user_id) ∧
      (∀ u ∈ root db', u ∈ root db) ∧
      delete_user_status = 204 := by
  refine ⟨{ db with rows := db.rows.filter (fun u => u.id != user_id) },
    ?_, ?_, ?_, ?_, rfl⟩
  · unfold delete_user
    rw [h]
  · unfold read_user findUser
    have hnone : ({ db with rows := db.rows.filter (fun u => u.id != user_id) }
        : DB).rows.find? (fun u => u.id == user_id) = none := by
      rw [List.find?_eq_none]
      intro u hu
      simp only [List.mem_filter] at hu
      simpa using hu.2
    rw [hnone]
  · intro u hu
    simp only [root, List.mem_filter] at hu
    simpa using hu.2
  · intro u hu
    simp only [root, List.mem_filter] at hu
    exact hu.1

/-- Witness for C5: deleting the single stored user. -/
theorem delete_removes_record_witness :
    ∃ db' : DB,
      delete_user 1 ⟨[⟨1, "Ann", "a@x.com", 30, 0⟩], 2⟩ = .ok (none, db') ∧
      read_user 1 db' = .error ⟨404, "User not found in the database"⟩ ∧
      (∀ u ∈ root db', u.id ≠ 1) ∧
      (∀ u ∈ root db', u ∈ root (⟨[⟨1, "Ann", "a@x.com", 30, 0⟩], 2⟩ : DB)) ∧
      delete_user_status = 204 :=
  delete_removes_record 1 ⟨[⟨1, "Ann", "a@x.com", 30, 0⟩], 2⟩
    ⟨1, "Ann", "a@x.com", 30, 0⟩ rfl

lemma create_user_fst_id (user : UserIn) (now : Nat) (db : DB) :
    (create_user user now db).fst.id = db.nextId := rfl

/-- Rewriting the row with primary key `user_id` by a row carrying that
same key changes no stored id. -/
lemma map_id_replace {rows : List User} {user_id : Nat} {u' : User}
    (hid : u'.id = user_id) :
    (rows.map (fun u => if u.id == user_id then u' else u)).map (fun u => u.id)
      = rows.map (fun u => u.id) := by
  induction rows with
  | nil => simp
  | cons v t ih =>
      simp only [List.map_cons, ih]
      congr 1
      by_cases hv : v.id = user_id
      · simp [hv, hid]
      · simp [hv]

/-- C6: ListAll (`root`) after creating N users on a fresh database
returns exactly the N records Create returned and stored, in insertion
order; on the empty database it returns the empty sequence (and its type
has no error case at all). -/
theorem listAll_returns_all_created (reqs : List (UserIn × Nat)) :
    root (createAll reqs emptyDB).snd = (createAll reqs emptyDB).fst ∧
    (createAll reqs emptyDB).fst.length = reqs.length ∧
    root emptyDB = [] := by
  refine ⟨?_, createAll_length reqs emptyDB, rfl⟩
  have h := createAll_rows reqs emptyDB
  simpa [root, emptyDB] using h

/-- C7: ids are stable and never reused.  A successful Update changes no
stored id (creation only appends and deletion only removes rows, so an
id never changes while its user exists); and in any run of requests, a
user created later receives a strictly larger id than a user created
earlier, even when the earlier record was deleted in between. -/
theorem ids_stable_and_never_reused :
    (∀ (user_id : Nat) (user : UserIn) (db : DB) (u1 : User) (db1 : DB),
        update_user user_id user db = .ok (u1, db1) →
        db1.rows.map (fun u => u.id) = db.rows.map (fun u => u.id)) ∧
    (∀ (ops1 ops2 : List Op) (user user' : UserIn) (now now' : Nat),
        ((create_user user now (run ops1)).fst).id <
        ((create_user user' now'
          (run (ops1 ++ Op.create user now :: ops2))).fst).id) := by
  constructor
  · intro user_id user db u1 db1 h
    cases hf : findUser db user_id with
    | none =>
        unfold update_user at h
        rw [hf] at h
        cases h
    | some db_user =>
        unfold update_user at h
        rw [hf] at h
        simp only [Except.ok.injEq, Prod.mk.injEq] at h
        obtain ⟨hu, hdb⟩ := h
        subst hdb
        exact map_id_replace
          ((applyInput_id db_user user).trans (findUser_some_id hf))
  · intro ops1 ops2 user user' now now'
    rw [create_user_fst_id, create_user_fst_id]
    unfold run
    rw [List.foldl_append, List.foldl_cons]
    have h2 := foldl_nextId_le ops2
      (applyOp (Op.create user now)
        (List.foldl (fun db op => applyOp op db) emptyDB ops1))
    have h1 : (List.foldl (fun db op => applyOp op db) emptyDB ops1).nextId
        < (applyOp (Op.create user now)
            (List.foldl (fun db op => applyOp op db) emptyDB ops1)).nextId := by
      simp [applyOp, create_user]
    exact lt_of_lt_of_le h1 h2

/-- Witness for C7: its first part applied to a concrete one-row state,
where the successful update leaves the stored ids unchanged. -/
theorem ids_stable_and_never_reused_witness :
    (⟨[⟨1, "Bob", "b@x.com", 31, 0⟩], 2⟩ : DB).rows.map (fun u => u.id)
      = (⟨[⟨1, "Ann", "a@x.com", 30, 0⟩], 2⟩ : DB).rows.map (fun u => u.id) :=
  ids_stable_and_never_reused.1 1 ⟨none, "Bob", "b@x.com", 31, none⟩
    ⟨[⟨1, "Ann", "a@x.com", 30, 0⟩], 2⟩ ⟨1, "Bob", "b@x.com", 31, 0⟩
    ⟨[⟨1, "Bob", "b@x.com", 31, 0⟩], 2⟩ rfl

/-- C8: Create stores a new User whose id is freshly generated by
storage (the generator's next value, distinct from every stored id) and
whose created_at is the creation time; it returns the full stored
record; any id or created_at supplied in the request body is ignored and
does not influence the stored record. -/
theorem create_generates_id_and_timestamp (user : UserIn) (now : Nat)
    (db : DB) (h : WF db) :
    ((create_user user now db).fst).id = db.nextId ∧
    (∀ v ∈ db.rows, v.id ≠ ((create_user user now db).fst).id) ∧
    ((create_user user now db).fst).created_at = now ∧
    ((create_user user now db).fst).name = user.name ∧
    ((create_user user now db).fst).email = user.email ∧
    ((create_user user now db).fst).age = user.age ∧
    (create_user user now db).snd.rows
      = db.rows ++ [(create_user user now db).fst] ∧
    (∀ (id? old? : Option Nat),
        create_user ⟨id?, user.name, user.email, user.age, old?⟩ now db
          = create_user user now db) := by
  refine ⟨rfl, ?_, rfl, rfl, rfl, rfl, rfl, fun id? old? => rfl⟩
  intro v hv
  rw [create_user_fst_id]
  exact Nat.ne_of_lt (h v hv)

/-- Witness for C8: a concrete create on the empty database. -/
theorem create_generates_id_and_timestamp_witness :
    ((create_user ⟨some 99, "Ann", "a@x.com", 30, some 77⟩ 5 emptyDB).fst).id
      = emptyDB.nextId ∧
    (∀ v ∈ emptyDB.rows, v.id ≠
      ((create_user ⟨some 99, "Ann", "a@x.com", 30, some 77⟩ 5 emptyDB).fst).id) ∧
    ((create_user ⟨some 99, "Ann", "a@x.com", 30, some 77⟩ 5 emptyDB).fst).created_at
      = 5 ∧
    ((create_user ⟨some 99, "Ann", "a@x.com", 30, some 77⟩ 5 emptyDB).fst).name
      = "Ann" ∧
    ((create_user ⟨some 99, "Ann", "a@x.com", 30, some 77⟩ 5 emptyDB).fst).email
      = "a@x.com" ∧
    ((create_user ⟨some 99, "Ann", "a@x.com", 30, some 77⟩ 5 emptyDB).fst).age
      = 30 ∧
    (create_user ⟨some 99, "Ann", "a@x.com", 30, some 77⟩ 5 emptyDB).snd.rows
      = emptyDB.rows
        ++ [(create_user ⟨some 99, "Ann", "a@x.com", 30, some 77⟩ 5 emptyDB).fst] ∧
    (∀ (id? old? : Option Nat),
        create_user ⟨id?, "Ann", "a@x.com", 30, old?⟩ 5 emptyDB
          = create_user ⟨some 99, "Ann", "a@x.com", 30, some 77⟩ 5 emptyDB) :=
  create_generates_id_and_timestamp ⟨some 99, "Ann", "a@x.com", 30, some 77⟩ 5
    emptyDB (by intro u hu; simp [emptyDB] at hu)

/-- C9 as stated is false twice over: a non-empty configured
DATABASE_URL passes validation, yet the connection string handed to
`create_engine` is the hardcoded sqlite literal of src/app/main.py, not
the configured value — the configuration collaborator does not supply
the connection string the service uses; and when the variable is absent
`Settings()` succeeds with the empty default (pydantic v2 skips field
validators on defaults), so the missing connection string raises no
startup error either. -/
theorem config_url_not_used_counterexample :
    Settings.construct (some "postgresql://db.example/users")
      = .ok { DATABASE_URL := "postgresql://db.example/users" } ∧
    Settings.construct none = .ok { DATABASE_URL := "" } ∧
    engine_connection_string ≠ "postgresql://db.example/users" ∧
    engine_connection_string = "sqlite:///./users.db" := by
  refine ⟨rfl, rfl, ?_, rfl⟩
  decide

/-- C9 amended: only an explicitly supplied empty (or whitespace-only)
DATABASE_URL value is rejected with a `ValueError` when `Settings` is
constructed at startup; an absent variable falls back to the empty
default with no validation and no error, and the connection string the
service itself uses is the hardcoded sqlite literal of src/app/main.py
rather than the configured value. -/
theorem empty_database_url_rejected_only_if_supplied (v : String)
    (h : v = "" ∨ strip v = "") :
    Settings.construct (some v)
      = .error "DATABASE_URL cannot be empty in .env file" ∧
    Settings.construct none = .ok { DATABASE_URL := "" } ∧
    engine_connection_string = "sqlite:///./users.db" := by
  refine ⟨?_, rfl, rfl⟩
  unfold Settings.construct validate_database_url
  rcases h with h | h <;> simp [h]

/-- Witness for the amended C9: the explicitly supplied empty string. -/
theorem empty_database_url_rejected_only_if_supplied_witness :
    Settings.construct (some "")
      = .error "DATABASE_URL cannot be empty in .env file" ∧
    Settings.construct none = .ok { DATABASE_URL := "" } ∧
    engine_connection_string = "sqlite:///./users.db" :=
  empty_database_url_rejected_only_if_supplied "" (Or.inl rfl)

/-- C10: each operation touches at most the record with the given id: a
successful Update or Delete leaves every stored record whose id differs
from the given one untouched (stored afterwards exactly when stored
before), a NotFound failure of Update or Delete leaves the whole storage
state unchanged, and GetById never changes storage. -/
theorem operations_touch_only_target :
    (∀ (user_id : Nat) (user : UserIn) (db : DB) (u1 : User) (db1 : DB),
        update_user user_id user db = .ok (u1, db1) →
        ∀ v : User, v.id ≠ user_id → (v ∈ root db1 ↔ v ∈ root db)) ∧
    (∀ (user_id : Nat) (db : DB) (body : Option User) (db1 : DB),
        delete_user user_id db = .ok (body, db1) →
        ∀ v : User, v.id ≠ user_id → (v ∈ root db1 ↔ v ∈ root db)) ∧
    (∀ (user_id : Nat) (user : UserIn) (db : DB),
        findUser db user_id = none → update_user_db user_id user db = db) ∧
    (∀ (user_id : Nat) (db : DB),
        findUser db user_id = none → delete_user_db user_id db = db) ∧
    (∀ (user_id : Nat) (db : DB), read_user_db user_id db = db) := by
  refine ⟨?_, ?_, ?_, ?_, fun user_id db => rfl⟩
  · intro user_id user db u1 db1 h v hvne
    cases hf : findUser db user_id with
    | none =>
        unfold update_user at h
        rw [hf] at h
        cases h
    | some db_user =>
        unfold update_user at h
        rw [hf] at h
        simp only [Except.ok.injEq, Prod.mk.injEq] at h
        obtain ⟨hu, hdb⟩ := h
        subst hdb
        simp only [root]
        constructor
        · intro hv
          rw [List.mem_map] at hv
          obtain ⟨w, hw, hwv⟩ := hv
          by_cases hwid : w.id = user_id
          · rw [if_pos (by simpa using hwid)] at hwv
            exfalso
            apply hvne
            rw [← hwv, applyInput_id]
            exact findUser_some_id hf
          · rw [if_neg (by simpa using hwid)] at hwv
            rw [← hwv]
            exact hw
        · intro hv
          rw [List.mem_map]
          exact ⟨v, hv, by rw [if_neg (by simpa using hvne)]⟩
  · intro user_id db body db1 h v hvne
    cases hf : findUser db user_id with
    | none =>
        unfold delete_user at h
        rw [hf] at h
        cases h
    | some db_user =>
        unfold delete_user at h
        rw [hf] at h
        simp only [Except.ok.injEq, Prod.mk.injEq] at h
        obtain ⟨hb, hdb⟩ := h
        subst hdb
        simp [root, List.mem_filter, hvne]
  · intro user_id user db h
    simp [update_user_db, update_user, h]
  · intro user_id db h
    simp [delete_user_db, delete_user, h]

/-- Witness for C10: its first part applied to a concrete two-row state —
updating user 1 keeps user 2 stored exactly as it was. -/
theorem operations_touch_only_target_witness :
    (⟨2, "Cam", "c@x.com", 22, 0⟩ : User)
        ∈ root (⟨[⟨1, "Bob", "b@x.com", 31, 0⟩, ⟨2, "Cam", "c@x.com", 22, 0⟩], 3⟩ : DB)
      ↔ (⟨2, "Cam", "c@x.com", 22, 0⟩ : User)
        ∈ root (⟨[⟨1, "Ann", "a@x.com", 30, 0⟩, ⟨2, "Cam", "c@x.com", 22, 0⟩], 3⟩ : DB) :=
  operations_touch_only_target.1 1 ⟨none, "Bob", "b@x.com", 31, none⟩
    ⟨[⟨1, "Ann", "a@x.com", 30, 0⟩, ⟨2, "Cam", "c@x.com", 22, 0⟩], 3⟩
    ⟨1, "Bob", "b@x.com", 31, 0⟩
    ⟨[⟨1, "Bob", "b@x.com", 31, 0⟩, ⟨2, "Cam", "c@x.com", 22, 0⟩], 3⟩ rfl
    ⟨2, "Cam", "c@x.com", 22, 0⟩ (by decide)

end PortfolioApi
